import Mathlib

/-!
Shallow embedding of src/src/i_midirpc.c (DOOM Retro's client interface to
the RPC MIDI server).

The C file manipulates four pieces of process-global state:
  serverInit      (dboolean) set by I_MidiRPCInitServer on successful launch,
  clientInit      (dboolean) set by I_MidiRPCInitClient after binding,
  szStringBinding (string, NULL until RpcStringBindingCompose succeeds),
  hMidiRPCBinding (handle, NULL until RpcBindingFromStringBinding succeeds).

External calls (process creation, RPC binding composition and resolution,
the listening probe, and the remote MIDI commands, each of which can raise
a transport fault) are modelled by an oracle record `Env`: a field per
external call saying whether that call succeeds.  Every operation of the C
file becomes a pure function of the oracle and the state, returning its
dboolean result, the new state, and a trace of the external actions it
performed (remote invocations, sleeps, listening checks, resource frees),
so that claims about what a call does and does not attempt are statements
about the trace.
-/

namespace MidiRPC

/-- The remote operations of the midiproc interface (midiproc.h) that
i_midirpc.c invokes over the binding. -/
inductive RemoteCall where
  | prepareNewSong
  | addChunk
  | playSong
  | stopSong
  | changeVolume
  | pauseSong
  | resumeSong
  | stopServer
  deriving DecidableEq, Repr

/-- Observable external actions of a call into i_midirpc.c. -/
inductive Event where
  | composeBinding            -- RpcStringBindingCompose
  | bindFromString            -- RpcBindingFromStringBinding
  | listenCheck               -- RpcMgmtIsServerListening
  | sleep (ms : Nat)          -- I_Sleep(ms)
  | remote (c : RemoteCall)   -- a MidiRPC_* remote invocation
  | freeString                -- RpcStringFree(&szStringBinding)
  | freeBinding               -- RpcBindingFree(&hMidiRPCBinding)
  deriving DecidableEq, Repr

/-- The process-global state of i_midirpc.c.  The descriptor string and the
binding handle are opaque to the client, so they are modelled by whether
they are non-NULL. -/
structure MidiState where
  serverInit : Bool
  clientInit : Bool
  szStringBinding : Bool
  hMidiRPCBinding : Bool
  deriving DecidableEq, Repr

/-- State at process start: both flags false, both globals NULL. -/
def initState : MidiState :=
  { serverInit := false, clientInit := false
    szStringBinding := false, hMidiRPCBinding := false }

/-- Oracle for the external calls: which ones succeed.  `listening n` is the
outcome of the n-th RpcMgmtIsServerListening probe (true = RPC_S_OK);
`fault c` is whether remote call `c` raises a transport fault
(caught by RpcExcept in the C). -/
structure Env where
  fileExists : Bool
  createProcessOk : Bool
  composeOk : Bool
  bindOk : Bool
  listening : Nat → Bool
  fault : RemoteCall → Bool

/-- MIDIRPC_MAXTRIES from i_midirpc.c. -/
def MIDIRPC_MAXTRIES : Nat := 50

/-- The loop body of I_MidiRPCWaitForServer: probe the server; on RPC_S_OK
return true; otherwise sleep 10 ms and retry, returning false once
MIDIRPC_MAXTRIES probes have failed.  `budget` is the number of probes still
allowed (MIDIRPC_MAXTRIES - tries in the C); `i` indexes the probes into the
oracle. -/
def waitAux (listening : Nat → Bool) (i : Nat) : Nat → Bool × List Event
  | 0 => (false, [])
  | budget + 1 =>
    if listening i then
      (true, [Event.listenCheck])
    else
      let r := waitAux listening (i + 1) budget
      (r.1, Event.listenCheck :: Event.sleep 10 :: r.2)

/-- I_MidiRPCWaitForServer: poll the server up to MIDIRPC_MAXTRIES times,
sleeping 10 ms after each failed probe. -/
def I_MidiRPCWaitForServer (listening : Nat → Bool) : Bool × List Event :=
  waitAux listening 0 MIDIRPC_MAXTRIES

/-- CHECK_RPC_STATUS from i_midirpc.c: a remote command bails out with false
when either initialization flag is unset. -/
def CHECK_RPC_STATUS (s : MidiState) : Bool :=
  s.serverInit && s.clientInit

/-- I_MidiRPCRegisterSong: guard, then MidiRPC_PrepareNewSong followed by
MidiRPC_AddChunk inside one RpcTryExcept; a fault in either converts to a
false return (and a fault in the first prevents the second). -/
def I_MidiRPCRegisterSong (env : Env) (data : List Nat) (size : Int)
    (s : MidiState) : Bool × List Event :=
  if !CHECK_RPC_STATUS s then (false, [])
  else if env.fault RemoteCall.prepareNewSong then
    (false, [Event.remote RemoteCall.prepareNewSong])
  else if env.fault RemoteCall.addChunk then
    (false, [Event.remote RemoteCall.prepareNewSong,
             Event.remote RemoteCall.addChunk])
  else
    (true, [Event.remote RemoteCall.prepareNewSong,
            Event.remote RemoteCall.addChunk])

/-- I_MidiRPCPlaySong: guard, then MidiRPC_PlaySong(looping) in RpcTryExcept. -/
def I_MidiRPCPlaySong (env : Env) (looping : Bool) (s : MidiState) :
    Bool × List Event :=
  if !CHECK_RPC_STATUS s then (false, [])
  else if env.fault RemoteCall.playSong then
    (false, [Event.remote RemoteCall.playSong])
  else (true, [Event.remote RemoteCall.playSong])

/-- I_MidiRPCStopSong: guard, then MidiRPC_StopSong() in RpcTryExcept. -/
def I_MidiRPCStopSong (env : Env) (s : MidiState) : Bool × List Event :=
  if !CHECK_RPC_STATUS s then (false, [])
  else if env.fault RemoteCall.stopSong then
    (false, [Event.remote RemoteCall.stopSong])
  else (true, [Event.remote RemoteCall.stopSong])

/-- I_MidiRPCSetVolume: guard, then MidiRPC_ChangeVolume(volume). -/
def I_MidiRPCSetVolume (env : Env) (volume : Int) (s : MidiState) :
    Bool × List Event :=
  if !CHECK_RPC_STATUS s then (false, [])
  else if env.fault RemoteCall.changeVolume then
    (false, [Event.remote RemoteCall.changeVolume])
  else (true, [Event.remote RemoteCall.changeVolume])

/-- I_MidiRPCPauseSong: guard, then MidiRPC_PauseSong() in RpcTryExcept. -/
def I_MidiRPCPauseSong (env : Env) (s : MidiState) : Bool × List Event :=
  if !CHECK_RPC_STATUS s then (false, [])
  else if env.fault RemoteCall.pauseSong then
    (false, [Event.remote RemoteCall.pauseSong])
  else (true, [Event.remote RemoteCall.pauseSong])

/-- I_MidiRPCResumeSong: guard, then MidiRPC_ResumeSong() in RpcTryExcept. -/
def I_MidiRPCResumeSong (env : Env) (s : MidiState) : Bool × List Event :=
  if !CHECK_RPC_STATUS s then (false, [])
  else if env.fault RemoteCall.resumeSong then
    (false, [Event.remote RemoteCall.resumeSong])
  else (true, [Event.remote RemoteCall.resumeSong])

/-- I_MidiRPCInitServer: check the executable exists, CreateProcess it, and
set serverInit true exactly when CreateProcess returns nonzero; the return
value is CreateProcess's result. -/
def I_MidiRPCInitServer (env : Env) (s : MidiState) : Bool × MidiState :=
  if !env.fileExists then (false, s)
  else if env.createProcessOk then (true, { s with serverInit := true })
  else (false, s)

/-- I_MidiRPCInitClient: bail out when the server was not started; compose
the binding string (allocating szStringBinding on success); resolve it into
hMidiRPCBinding; set clientInit true; and return the result of the
readiness poll.  Note the C sets clientInit = true before calling
I_MidiRPCWaitForServer, so clientInit is true even when the poll fails. -/
def I_MidiRPCInitClient (env : Env) (s : MidiState) :
    Bool × MidiState × List Event :=
  if !s.serverInit then (false, s, [])
  else if !env.composeOk then (false, s, [Event.composeBinding])
  else
    let s1 := { s with szStringBinding := true }
    if !env.bindOk then
      (false, s1, [Event.composeBinding, Event.bindFromString])
    else
      let s2 := { s1 with hMidiRPCBinding := true, clientInit := true }
      let w := I_MidiRPCWaitForServer env.listening
      (w.1, s2, Event.composeBinding :: Event.bindFromString :: w.2)

/-- I_MidiRPCClientShutDown: when serverInit, invoke MidiRPC_StopServer in a
RpcTryExcept whose fault handler is empty (the fault is swallowed) and clear
serverInit; free szStringBinding if non-NULL; free hMidiRPCBinding if
non-NULL; clear clientInit.  The outcome does not depend on the oracle:
a transport fault on the stop-server call changes nothing. -/
def I_MidiRPCClientShutDown (env : Env) (s : MidiState) :
    MidiState × List Event :=
  let p1 : MidiState × List Event :=
    if s.serverInit then
      ({ s with serverInit := false }, [Event.remote RemoteCall.stopServer])
    else (s, [])
  let p2 : MidiState × List Event :=
    if p1.1.szStringBinding then
      ({ p1.1 with szStringBinding := false }, p1.2 ++ [Event.freeString])
    else p1
  let p3 : MidiState × List Event :=
    if p2.1.hMidiRPCBinding then
      ({ p2.1 with hMidiRPCBinding := false }, p2.2 ++ [Event.freeBinding])
    else p2
  ({ p3.1 with clientInit := false }, p3.2)

/-- One call through the public interface, with the oracle for its external
calls baked in; used to quantify over all call sequences. -/
inductive Op where
  | initServer (env : Env)
  | initClient (env : Env)
  | registerSong (env : Env) (data : List Nat) (size : Int)
  | playSong (env : Env) (looping : Bool)
  | stopSong (env : Env)
  | setVolume (env : Env) (volume : Int)
  | pauseSong (env : Env)
  | resumeSong (env : Env)
  | shutDown (env : Env)

/-- The state transition of one public call (remote commands leave the state
unchanged, as in the C). -/
def applyOp (op : Op) (s : MidiState) : MidiState :=
  match op with
  | Op.initServer env => (I_MidiRPCInitServer env s).2
  | Op.initClient env => (I_MidiRPCInitClient env s).2.1
  | Op.registerSong _ _ _ => s
  | Op.playSong _ _ => s
  | Op.stopSong _ => s
  | Op.setVolume _ _ => s
  | Op.pauseSong _ => s
  | Op.resumeSong _ => s
  | Op.shutDown env => (I_MidiRPCClientShutDown env s).1

/-- Run a sequence of public calls from a state. -/
def runOps : List Op → MidiState → MidiState
  | [], s => s
  | op :: ops, s => runOps ops (applyOp op s)

/-- Number of listening probes in a trace. -/
def checkCount : List Event → Nat
  | [] => 0
  | Event.listenCheck :: rest => 1 + checkCount rest
  | _ :: rest => checkCount rest

/-- Total milliseconds slept in a trace. -/
def sleepTotal : List Event → Nat
  | [] => 0
  | Event.sleep ms :: rest => ms + sleepTotal rest
  | _ :: rest => sleepTotal rest

/-- Number of szStringBinding releases in a trace. -/
def freeStringCount : List Event → Nat
  | [] => 0
  | Event.freeString :: rest => 1 + freeStringCount rest
  | _ :: rest => freeStringCount rest

/-- Number of hMidiRPCBinding releases in a trace. -/
def freeBindingCount : List Event → Nat
  | [] => 0
  | Event.freeBinding :: rest => 1 + freeBindingCount rest
  | _ :: rest => freeBindingCount rest

/-- The invariant of claim C9: a bound client implies a started server. -/
def flagInv (s : MidiState) : Prop :=
  s.clientInit = true → s.serverInit = true

/-- An oracle on which every external call succeeds and the server listens
at once. -/
def envAllOk : Env :=
  { fileExists := true, createProcessOk := true, composeOk := true,
    bindOk := true, listening := fun _ => true, fault := fun _ => false }

/-- An oracle on which launch, composition and resolution succeed but the
server never reports listening; remote calls do not fault. -/
def envNeverListen : Env :=
  { fileExists := true, createProcessOk := true, composeOk := true,
    bindOk := true, listening := fun _ => false, fault := fun _ => false }

/-- An oracle on which the helper executable is missing. -/
def envNoFile : Env :=
  { fileExists := false, createProcessOk := true, composeOk := true,
    bindOk := true, listening := fun _ => true, fault := fun _ => false }

/-- An oracle on which every remote invocation raises a transport fault. -/
def envAllFault : Env :=
  { fileExists := true, createProcessOk := true, composeOk := true,
    bindOk := true, listening := fun _ => true, fault := fun _ => true }

/-- The state after a successful launch and bind: both flags set, both
globals non-NULL. -/
def readyState : MidiState :=
  { serverInit := true, clientInit := true
    szStringBinding := true, hMidiRPCBinding := true }

theorem waitAux_true_iff (l : Nat → Bool) :
    ∀ f i, (waitAux l i f).1 = true ↔ ∃ k, k < f ∧ l (i + k) = true := by
  intro f
  induction f with
  | zero => intro i; simp [waitAux]
  | succ f ih =>
    intro i
    cases hl : l i with
    | true =>
      have hstep : waitAux l i (f + 1) = (true, [Event.listenCheck]) := by
        simp [waitAux, hl]
      rw [hstep]
      exact ⟨fun _ => ⟨0, Nat.succ_pos f, by simpa using hl⟩, fun _ => rfl⟩
    | false =>
      have hstep : (waitAux l i (f + 1)).1 = (waitAux l (i + 1) f).1 := by
        simp [waitAux, hl]
      rw [hstep, ih (i + 1)]
      constructor
      · rintro ⟨k, hk, hlk⟩
        refine ⟨k + 1, by omega, ?_⟩
        have he : i + (k + 1) = i + 1 + k := by omega
        rw [he]; exact hlk
      · rintro ⟨k, hk, hlk⟩
        cases k with
        | zero =>
          rw [Nat.add_zero] at hlk
          rw [hl] at hlk
          exact absurd hlk (by simp)
        | succ k =>
          refine ⟨k, by omega, ?_⟩
          have he : i + 1 + k = i + (k + 1) := by omega
          rw [he]; exact hlk

theorem waitAux_checkCount (l : Nat → Bool) :
    ∀ f i, checkCount (waitAux l i f).2 ≤ f := by
  intro f
  induction f with
  | zero => intro i; simp [waitAux, checkCount]
  | succ f ih =>
    intro i
    cases hl : l i with
    | true => simp [waitAux, hl, checkCount]
    | false =>
      have hstep : (waitAux l i (f + 1)).2
          = Event.listenCheck :: Event.sleep 10 :: (waitAux l (i + 1) f).2 := by
        simp [waitAux, hl]
      rw [hstep]
      have := ih (i + 1)
      simp only [checkCount]
      omega

theorem waitAux_sleepTotal (l : Nat → Bool) :
    ∀ f i, sleepTotal (waitAux l i f).2 ≤ 10 * f := by
  intro f
  induction f with
  | zero => intro i; simp [waitAux, sleepTotal]
  | succ f ih =>
    intro i
    cases hl : l i with
    | true => simp [waitAux, hl, sleepTotal]
    | false =>
      have hstep : (waitAux l i (f + 1)).2
          = Event.listenCheck :: Event.sleep 10 :: (waitAux l (i + 1) f).2 := by
        simp [waitAux, hl]
      rw [hstep]
      have := ih (i + 1)
      simp only [sleepTotal]
      omega

theorem waitAux_events (l : Nat → Bool) :
    ∀ f i, ∀ e ∈ (waitAux l i f).2,
      e = Event.listenCheck ∨ e = Event.sleep 10 := by
  intro f
  induction f with
  | zero => intro i; simp [waitAux]
  | succ f ih =>
    intro i
    cases hl : l i with
    | true => simp [waitAux, hl]
    | false =>
      have hstep : (waitAux l i (f + 1)).2
          = Event.listenCheck :: Event.sleep 10 :: (waitAux l (i + 1) f).2 := by
        simp [waitAux, hl]
      rw [hstep]
      intro e he
      rcases List.mem_cons.mp he with h | he
      · exact Or.inl h
      rcases List.mem_cons.mp he with h | he
      · exact Or.inr h
      exact ih (i + 1) e he

theorem waitAux_firstSuccess (l : Nat → Bool) :
    ∀ f i k, k < f → (∀ j, j < k → l (i + j) = false) → l (i + k) = true →
      checkCount (waitAux l i f).2 = k + 1 := by
  intro f
  induction f with
  | zero => intro i k hk; omega
  | succ f ih =>
    intro i k hk hbefore hk2
    cases k with
    | zero =>
      rw [Nat.add_zero] at hk2
      simp [waitAux, hk2, checkCount]
    | succ k =>
      have hl : l i = false := by
        have := hbefore 0 (Nat.succ_pos k)
        rwa [Nat.add_zero] at this
      have hstep : (waitAux l i (f + 1)).2
          = Event.listenCheck :: Event.sleep 10 :: (waitAux l (i + 1) f).2 := by
        simp [waitAux, hl]
      rw [hstep]
      simp only [checkCount]
      have hrec : checkCount (waitAux l (i + 1) f).2 = k + 1 := by
        refine ih (i + 1) k (by omega) ?_ ?_
        · intro j hj
          have := hbefore (j + 1) (by omega)
          have he : i + (j + 1) = i + 1 + j := by omega
          rwa [he] at this
        · have he : i + (k + 1) = i + 1 + k := by omega
          rwa [he] at hk2
      omega

/-- Claim C2: no remote command succeeds unless both serverInit and
clientInit are true at the time of the call; when either flag is false the
command returns false with an empty trace, i.e. without attempting any
remote invocation (CHECK_RPC_STATUS).  The contrapositive gives: a true
return implies both flags were set. -/
theorem claim_C2_guard_invariant (env : Env) (s : MidiState) (data : List Nat)
    (size volume : Int) (looping : Bool)
    (h : s.serverInit = false ∨ s.clientInit = false) :
    I_MidiRPCRegisterSong env data size s = (false, []) ∧
    I_MidiRPCPlaySong env looping s = (false, []) ∧
    I_MidiRPCStopSong env s = (false, []) ∧
    I_MidiRPCSetVolume env volume s = (false, []) ∧
    I_MidiRPCPauseSong env s = (false, []) ∧
    I_MidiRPCResumeSong env s = (false, []) := by
  have hg : CHECK_RPC_STATUS s = false := by
    rcases h with h | h <;> simp [CHECK_RPC_STATUS, h]
  refine ⟨?_, ?_, ?_, ?_, ?_, ?_⟩ <;>
    simp [I_MidiRPCRegisterSong, I_MidiRPCPlaySong, I_MidiRPCStopSong,
      I_MidiRPCSetVolume, I_MidiRPCPauseSong, I_MidiRPCResumeSong, hg]

/-- Claim C2 witness at a concrete unbound state. -/
theorem claim_C2_guard_invariant_witness :
    I_MidiRPCPlaySong envAllOk true initState = (false, []) :=
  (claim_C2_guard_invariant envAllOk initState [] 0 0 true (Or.inl rfl)).2.1

/-- Claim C3: a transport fault raised by the remote invocation of any of
the six gateway commands is converted into a false return (RpcExcept); the
commands are total functions into Bool, so no fault channel exists for a
fault to escape through. -/
theorem claim_C3_fault_to_false (env : Env) (s : MidiState) (data : List Nat)
    (size volume : Int) (looping : Bool) :
    (env.fault RemoteCall.prepareNewSong = true ∨
        env.fault RemoteCall.addChunk = true →
      (I_MidiRPCRegisterSong env data size s).1 = false) ∧
    (env.fault RemoteCall.playSong = true →
      (I_MidiRPCPlaySong env looping s).1 = false) ∧
    (env.fault RemoteCall.stopSong = true →
      (I_MidiRPCStopSong env s).1 = false) ∧
    (env.fault RemoteCall.changeVolume = true →
      (I_MidiRPCSetVolume env volume s).1 = false) ∧
    (env.fault RemoteCall.pauseSong = true →
      (I_MidiRPCPauseSong env s).1 = false) ∧
    (env.fault RemoteCall.resumeSong = true →
      (I_MidiRPCResumeSong env s).1 = false) := by
  refine ⟨?_, ?_, ?_, ?_, ?_, ?_⟩
  · rintro (h | h) <;>
      cases hg : CHECK_RPC_STATUS s <;>
      cases hp : env.fault RemoteCall.prepareNewSong <;>
      simp_all [I_MidiRPCRegisterSong]
  · intro h
    cases hg : CHECK_RPC_STATUS s <;> simp [I_MidiRPCPlaySong, hg, h]
  · intro h
    cases hg : CHECK_RPC_STATUS s <;> simp [I_MidiRPCStopSong, hg, h]
  · intro h
    cases hg : CHECK_RPC_STATUS s <;> simp [I_MidiRPCSetVolume, hg, h]
  · intro h
    cases hg : CHECK_RPC_STATUS s <;> simp [I_MidiRPCPauseSong, hg, h]
  · intro h
    cases hg : CHECK_RPC_STATUS s <;> simp [I_MidiRPCResumeSong, hg, h]

/-- Claim C5: calling I_MidiRPCInitClient with serverInit false returns
false at once, with the state unchanged and an empty trace (no composition,
no resolution, no probe, no sleep). -/
theorem claim_C5_connect_needs_server (env : Env) (s : MidiState)
    (h : s.serverInit = false) :
    I_MidiRPCInitClient env s = (false, s, []) := by
  simp [I_MidiRPCInitClient, h]

/-- Claim C5 witness at the initial state. -/
theorem claim_C5_connect_needs_server_witness :
    I_MidiRPCInitClient envAllOk initState = (false, initState, []) :=
  claim_C5_connect_needs_server envAllOk initState rfl

/-- Claim C7: with both flags set, I_MidiRPCRegisterSong succeeds exactly
when neither MidiRPC_PrepareNewSong nor MidiRPC_AddChunk faults; when the
first does not fault both remote operations are attempted in order; when
the first faults the second is not attempted; and the trace never holds any
remote operation besides those two (no cleanup of the partially prepared
remote state). -/
theorem claim_C7_register_two_calls (env : Env) (s : MidiState)
    (data : List Nat) (size : Int)
    (h : s.serverInit = true ∧ s.clientInit = true) :
    ((I_MidiRPCRegisterSong env data size s).1 = true ↔
      env.fault RemoteCall.prepareNewSong = false ∧
        env.fault RemoteCall.addChunk = false) ∧
    (env.fault RemoteCall.prepareNewSong = false →
      (I_MidiRPCRegisterSong env data size s).2 =
        [Event.remote RemoteCall.prepareNewSong,
         Event.remote RemoteCall.addChunk]) ∧
    (env.fault RemoteCall.prepareNewSong = true →
      (I_MidiRPCRegisterSong env data size s).2 =
        [Event.remote RemoteCall.prepareNewSong]) ∧
    (∀ e ∈ (I_MidiRPCRegisterSong env data size s).2,
      e = Event.remote RemoteCall.prepareNewSong ∨
        e = Event.remote RemoteCall.addChunk) := by
  have hg : CHECK_RPC_STATUS s = true := by
    simp [CHECK_RPC_STATUS, h.1, h.2]
  cases hp : env.fault RemoteCall.prepareNewSong <;>
    cases hc : env.fault RemoteCall.addChunk <;>
    simp [I_MidiRPCRegisterSong, hg, hp, hc]

/-- Claim C7 witness: a fault-free registration from the ready state. -/
theorem claim_C7_register_two_calls_witness :
    (I_MidiRPCRegisterSong envAllOk [7] 1 readyState).1 = true :=
  (claim_C7_register_two_calls envAllOk readyState [7] 1 ⟨rfl, rfl⟩).1.mpr
    ⟨rfl, rfl⟩

/-- Claim C10: I_MidiRPCClientShutDown attempts the MidiRPC_StopServer
remote call exactly when serverInit is true — the guard clause
CHECK_RPC_STATUS plays no role, so clientInit being false does not stop the
attempt. -/
theorem claim_C10_shutdown_stops_server (env : Env) (s : MidiState) :
    Event.remote RemoteCall.stopServer ∈ (I_MidiRPCClientShutDown env s).2 ↔
      s.serverInit = true := by
  rcases s with ⟨sv, cl, str, hnd⟩
  cases sv <;> cases cl <;> cases str <;> cases hnd <;>
    simp [I_MidiRPCClientShutDown]

/-- Claim C4: I_MidiRPCClientShutDown leaves both flags false and both
globals NULL; a second call right after returns the same state with an
empty trace, so across the two calls the descriptor string and the binding
handle are each released at most once; it is safe from any state, partial
initialization included, because it is total over all of MidiState; and its
outcome never depends on the oracle, so a transport fault on the
stop-server call is swallowed and shutdown still completes. -/
theorem claim_C4_shutdown_idempotent (env env2 env3 : Env) (s : MidiState) :
    ((I_MidiRPCClientShutDown env s).1.serverInit = false ∧
     (I_MidiRPCClientShutDown env s).1.clientInit = false ∧
     (I_MidiRPCClientShutDown env s).1.szStringBinding = false ∧
     (I_MidiRPCClientShutDown env s).1.hMidiRPCBinding = false) ∧
    I_MidiRPCClientShutDown env2 (I_MidiRPCClientShutDown env s).1 =
      ((I_MidiRPCClientShutDown env s).1, []) ∧
    freeStringCount (I_MidiRPCClientShutDown env s).2 ≤ 1 ∧
    freeBindingCount (I_MidiRPCClientShutDown env s).2 ≤ 1 ∧
    I_MidiRPCClientShutDown env3 s = I_MidiRPCClientShutDown env s := by
  rcases s with ⟨sv, cl, str, hnd⟩
  cases sv <;> cases cl <;> cases str <;> cases hnd <;>
    simp [I_MidiRPCClientShutDown, freeStringCount, freeBindingCount]

/-- Claim C6: the readiness poll of I_MidiRPCWaitForServer terminates
within its budget on every oracle: at most MIDIRPC_MAXTRIES = 50 listening
probes, all other trace entries 10 ms sleeps totalling at most 500 ms; the
result is true exactly when some probe among the first 50 reports
listening, and the poll stops at the first such probe (k failing probes
then a success give exactly k + 1 probes); and a whole I_MidiRPCInitClient
call never runs more than the 50 probes of its one poll (the sequence is
not retried). -/
theorem claim_C6_poll_bounded (listening : Nat → Bool) (env : Env)
    (s : MidiState) :
    checkCount (I_MidiRPCWaitForServer listening).2 ≤ 50 ∧
    sleepTotal (I_MidiRPCWaitForServer listening).2 ≤ 500 ∧
    (∀ e ∈ (I_MidiRPCWaitForServer listening).2,
      e = Event.listenCheck ∨ e = Event.sleep 10) ∧
    ((I_MidiRPCWaitForServer listening).1 = true ↔
      ∃ k, k < 50 ∧ listening k = true) ∧
    (∀ k, k < 50 → (∀ j, j < k → listening j = false) →
      listening k = true →
      checkCount (I_MidiRPCWaitForServer listening).2 = k + 1) ∧
    checkCount (I_MidiRPCInitClient env s).2.2 ≤ 50 := by
  refine ⟨waitAux_checkCount listening MIDIRPC_MAXTRIES 0, ?_,
    waitAux_events listening MIDIRPC_MAXTRIES 0, ?_, ?_, ?_⟩
  · exact waitAux_sleepTotal listening MIDIRPC_MAXTRIES 0
  · have h := waitAux_true_iff listening MIDIRPC_MAXTRIES 0
    simpa [MIDIRPC_MAXTRIES] using h
  · intro k hk hbefore hlk
    refine waitAux_firstSuccess listening MIDIRPC_MAXTRIES 0 k hk ?_ ?_
    · intro j hj
      simpa using hbefore j hj
    · simpa using hlk
  · have hw := waitAux_checkCount listening MIDIRPC_MAXTRIES 0
    cases hs : s.serverInit <;>
      cases hcomp : env.composeOk <;>
      cases hbind : env.bindOk <;>
      simp [I_MidiRPCInitClient, I_MidiRPCWaitForServer, hs, hcomp, hbind,
        checkCount] <;>
    · have hb := waitAux_checkCount env.listening MIDIRPC_MAXTRIES 0
      have ha : MIDIRPC_MAXTRIES = 50 := rfl
      omega

/-- Claim C8: I_MidiRPCInitServer returns true exactly when the executable
exists and CreateProcess succeeds, and only then sets serverInit; on
failure the state is unchanged and a following I_MidiRPCInitClient returns
false at once with no side effect. -/
theorem claim_C8_start_gates_connect (env env2 : Env) (s : MidiState)
    (h : s.serverInit = false) :
    ((I_MidiRPCInitServer env s).1 = true ↔
      env.fileExists = true ∧ env.createProcessOk = true) ∧
    ((I_MidiRPCInitServer env s).1 = true →
      (I_MidiRPCInitServer env s).2.serverInit = true) ∧
    ((I_MidiRPCInitServer env s).1 = false →
      (I_MidiRPCInitServer env s).2 = s ∧
      I_MidiRPCInitClient env2 (I_MidiRPCInitServer env s).2 =
        (false, s, [])) := by
  cases hf : env.fileExists <;> cases hc : env.createProcessOk <;>
    simp [I_MidiRPCInitServer, I_MidiRPCInitClient, h, hf, hc]

/-- Claim C8 witness: the executable is missing, so start fails, the state
is unchanged, and connect afterwards fails at once. -/
theorem claim_C8_start_gates_connect_witness :
    (I_MidiRPCInitServer envNoFile initState).2 = initState ∧
    I_MidiRPCInitClient envAllOk (I_MidiRPCInitServer envNoFile initState).2 =
      (false, initState, []) :=
  (claim_C8_start_gates_connect envNoFile envAllOk initState rfl).2.2 rfl

/-- Claim C1 counterexample: launch, composition and resolution succeed and
the server never listens (envNeverListen), so connect returns false as the
claim says; but clientInit is true after the call (the C sets it at line
300, before the readiness poll), and a fault-free gateway command issued
afterwards returns true — both contrary to the claim. -/
theorem claim_C1_counterexample :
    (I_MidiRPCInitClient envNeverListen
        ((I_MidiRPCInitServer envNeverListen initState).2)).1 = false ∧
    (I_MidiRPCInitClient envNeverListen
        ((I_MidiRPCInitServer envNeverListen initState).2)).2.1.clientInit
      = true ∧
    (I_MidiRPCPlaySong envNeverListen true
        (I_MidiRPCInitClient envNeverListen
          ((I_MidiRPCInitServer envNeverListen initState).2)).2.1).1
      = true := by
  decide

/-- Claim C1 amended: when the server is started, composition and
resolution succeed, and the helper never reports listening within the
50-try budget, I_MidiRPCInitClient returns false — but clientInit is set to
true by the call (the C sets it before the readiness poll), serverInit
stays true, and no gateway command issued afterwards is blocked by the
guard: each of the six returns true exactly when its remote invocations do
not fault (for I_MidiRPCRegisterSong, when neither of its two faults). -/
theorem claim_C1_connect_timeout (env : Env) (s : MidiState)
    (hs : s.serverInit = true) (hcomp : env.composeOk = true)
    (hbind : env.bindOk = true) (hlisten : ∀ n, env.listening n = false) :
    (I_MidiRPCInitClient env s).1 = false ∧
    (I_MidiRPCInitClient env s).2.1.clientInit = true ∧
    (I_MidiRPCInitClient env s).2.1.serverInit = true ∧
    (∀ env2 (data : List Nat) (size volume : Int) (looping : Bool),
      (I_MidiRPCRegisterSong env2 data size
          (I_MidiRPCInitClient env s).2.1).1 =
        (!env2.fault RemoteCall.prepareNewSong &&
          !env2.fault RemoteCall.addChunk) ∧
      (I_MidiRPCPlaySong env2 looping (I_MidiRPCInitClient env s).2.1).1 =
        !env2.fault RemoteCall.playSong ∧
      (I_MidiRPCStopSong env2 (I_MidiRPCInitClient env s).2.1).1 =
        !env2.fault RemoteCall.stopSong ∧
      (I_MidiRPCSetVolume env2 volume (I_MidiRPCInitClient env s).2.1).1 =
        !env2.fault RemoteCall.changeVolume ∧
      (I_MidiRPCPauseSong env2 (I_MidiRPCInitClient env s).2.1).1 =
        !env2.fault RemoteCall.pauseSong ∧
      (I_MidiRPCResumeSong env2 (I_MidiRPCInitClient env s).2.1).1 =
        !env2.fault RemoteCall.resumeSong) := by
  have hw : (I_MidiRPCWaitForServer env.listening).1 = false := by
    show (waitAux env.listening 0 MIDIRPC_MAXTRIES).1 = false
    cases hv : (waitAux env.listening 0 MIDIRPC_MAXTRIES).1
    · rfl
    · exfalso
      rcases (waitAux_true_iff env.listening MIDIRPC_MAXTRIES 0).mp hv with
        ⟨k, _, hk⟩
      rw [hlisten (0 + k)] at hk
      exact absurd hk (by simp)
  have hcl : I_MidiRPCInitClient env s =
      ((I_MidiRPCWaitForServer env.listening).1,
        { s with szStringBinding := true, hMidiRPCBinding := true,
                 clientInit := true },
        Event.composeBinding :: Event.bindFromString ::
          (I_MidiRPCWaitForServer env.listening).2) := by
    simp [I_MidiRPCInitClient, hs, hcomp, hbind, I_MidiRPCWaitForServer]
  rw [hcl]
  refine ⟨hw, rfl, ?_, ?_⟩
  · simpa using hs
  · intro env2 data size volume looping
    refine ⟨?_, ?_, ?_, ?_, ?_, ?_⟩
    · cases hp : env2.fault RemoteCall.prepareNewSong <;>
        cases hc : env2.fault RemoteCall.addChunk <;>
        simp [I_MidiRPCRegisterSong, CHECK_RPC_STATUS, hs, hp, hc]
    · cases hf : env2.fault RemoteCall.playSong <;>
        simp [I_MidiRPCPlaySong, CHECK_RPC_STATUS, hs, hf]
    · cases hf : env2.fault RemoteCall.stopSong <;>
        simp [I_MidiRPCStopSong, CHECK_RPC_STATUS, hs, hf]
    · cases hf : env2.fault RemoteCall.changeVolume <;>
        simp [I_MidiRPCSetVolume, CHECK_RPC_STATUS, hs, hf]
    · cases hf : env2.fault RemoteCall.pauseSong <;>
        simp [I_MidiRPCPauseSong, CHECK_RPC_STATUS, hs, hf]
    · cases hf : env2.fault RemoteCall.resumeSong <;>
        simp [I_MidiRPCResumeSong, CHECK_RPC_STATUS, hs, hf]

/-- Claim C1 witness: the amended claim at the concrete never-listening
oracle, starting from the state a successful launch leaves. -/
theorem claim_C1_connect_timeout_witness :
    (I_MidiRPCInitClient envNeverListen
        ((I_MidiRPCInitServer envNeverListen initState).2)).2.1.clientInit
      = true :=
  (claim_C1_connect_timeout envNeverListen
    ((I_MidiRPCInitServer envNeverListen initState).2)
    rfl rfl rfl (fun _ => rfl)).2.1

/-- One public call preserves the flag invariant of claim C9. -/
theorem applyOp_flagInv (op : Op) (s : MidiState) (h : flagInv s) :
    flagInv (applyOp op s) := by
  cases op with
  | initServer env =>
    cases hf : env.fileExists <;> cases hc : env.createProcessOk <;>
      simp_all [applyOp, I_MidiRPCInitServer, flagInv]
  | initClient env =>
    cases hs : s.serverInit
    · simp_all [applyOp, I_MidiRPCInitClient, flagInv]
    · cases hcomp : env.composeOk <;> cases hbind : env.bindOk <;>
        simp_all [applyOp, I_MidiRPCInitClient, flagInv]
  | registerSong env data size => exact h
  | playSong env looping => exact h
  | stopSong env => exact h
  | setVolume env volume => exact h
  | pauseSong env => exact h
  | resumeSong env => exact h
  | shutDown env =>
    simp [applyOp, I_MidiRPCClientShutDown, flagInv]

/-- Running any sequence of public calls preserves the flag invariant. -/
theorem runOps_flagInv : ∀ (ops : List Op) (s : MidiState),
    flagInv s → flagInv (runOps ops s) := by
  intro ops
  induction ops with
  | nil => intro s h; exact h
  | cons op ops ih => intro s h; exact ih (applyOp op s) (applyOp_flagInv op s h)

/-- Claim C9: in every state reachable from the initial state by a sequence
of public calls, clientInit implies serverInit. -/
theorem claim_C9_client_implies_server (ops : List Op)
    (h : (runOps ops initState).clientInit = true) :
    (runOps ops initState).serverInit = true :=
  runOps_flagInv ops initState (fun hc => absurd hc (by simp [initState])) h

/-- Claim C9 witness: a successful launch-and-connect sequence reaches a
state with both flags set, and the theorem yields serverInit. -/
theorem claim_C9_client_implies_server_witness :
    (runOps [Op.initServer envAllOk, Op.initClient envAllOk]
        initState).serverInit = true :=
  claim_C9_client_implies_server [Op.initServer envAllOk,
    Op.initClient envAllOk] rfl

end MidiRPC
